import Mathlib

/-
Verification of the millstone_meteor detection pipeline
(src/meteor_processing.py and src/detect_meteors.py) against its
natural-language specification.  Machine integers do not overflow in the
Python source, and all numeric data are modelled over ℚ; numpy float
division by zero is modelled explicitly (NpFloat below) where it matters.
-/

/-- A complex sample with rational real and imaginary parts. -/
structure Cplx where
  re : ℚ
  im : ℚ
deriving DecidableEq, Repr

/-- A detection record, the dict `dict(t=..., r=..., v=..., snr=...)` built by
meteor_processing.detect_meteors (lines 82-87). -/
structure Meteor where
  t : ℚ
  r : ℚ
  v : ℚ
  snr : ℚ
deriving DecidableEq, Repr

/-- The range-Doppler surface `mf_rx`: a 2D complex array indexed by
(delay, frequency) rows-first, with its coordinate metadata (absolute time,
per-delay range, per-frequency range rate) and the noise-power attribute. -/
structure Surface where
  vals : List (List Cplx)
  noise_power : ℚ
  t : ℚ
  range : List ℚ
  range_rate : List ℚ
deriving DecidableEq, Repr

/-- Maximum of a list of rationals (np.max / the running maximum of argmax). -/
def listMax : List ℚ → ℚ
  | [] => 0
  | x :: ys => ys.foldl max x

/-- Helper for valargmax: scan the tail keeping the best value and the index of
its FIRST occurrence (strict `<` so ties keep the earlier index). -/
def valargmaxAux : List ℚ → ℚ → Nat → Nat → ℚ × Nat
  | [], best, bestIdx, _ => (best, bestIdx)
  | y :: ys, best, bestIdx, i =>
      if best < y then valargmaxAux ys y i (i + 1)
      else valargmaxAux ys best bestIdx (i + 1)

/-- Modelled from the spec: `valargmax` comes from `valarg.py`, a file of this
repository that is not under src/ (src/detect_meteors.py line 21 imports it
from there, into that module's own namespace only; meteor_processing.py never
binds the name, so its line-75 call raises NameError — see detect_meteors
below).  Per spec §4.2 it returns the global maximum value together with its
flat index, ties broken by first occurrence in canonical row-major
(delay, frequency) scan order.  It gives the intended meaning of line 75 and
is used only in the unreachable branch of detect_meteors. -/
def valargmax (xs : List ℚ) : ℚ × Nat :=
  match xs with
  | [] => (0, 0)
  | x :: ys => valargmaxAux ys x 0 1

/-- Per-cell SNR, meteor_processing.py line 72:
`snr_vals = (mf_rx.real**2 + mf_rx.imag**2)/mf_rx.noise_power`. -/
def snrVals (m : Surface) : List (List ℚ) :=
  m.vals.map (fun row => row.map (fun z => (z.re ^ 2 + z.im ^ 2) / m.noise_power))

/-- The flat row-major SNR array that valargmax scans (numpy flat index order). -/
def snrFlat (m : Surface) : List ℚ :=
  (snrVals m).flatten

/-- Number of frequency columns of the surface (`snr_vals.shape[1]`). -/
def numCols (m : Surface) : Nat :=
  (m.vals.headD []).length

/-- `freq_idx` of line 76: second component of
`np.unravel_index(snr_idx, snr_vals.shape)` in row-major order. -/
def maxFreqIdx (m : Surface) : Nat :=
  (valargmax (snrFlat m)).2 % numCols m

/-- `delay_idx` of line 76: first component of the unravelled flat index. -/
def maxDelayIdx (m : Surface) : Nat :=
  (valargmax (snrFlat m)).2 / numCols m

/-- `v = mf_rx.range_rate.values[freq_idx]` (line 77). -/
def maxCellV (m : Surface) : ℚ :=
  m.range_rate.getD (maxFreqIdx m) 0

/-- The detector logic of meteor_processing.detect_meteors lines 75-89 as it
would run if the name valargmax resolved (it does not — see detect_meteors
below): take the global-maximum SNR cell and accept iff `snr >= snr_thresh`
and `-vmax_kps <= v/1e3 <= -vmin_kps`.  On acceptance Python returns the
one-element list `[meteor]`, modelled `some [m]`; on rejection it returns
Python `None` (line 89), modelled `none` (never `some []`).  In the module as
written this path is unreachable. -/
def detectorBody (mf_rx : Surface) (snr_thresh vmin_kps vmax_kps : ℚ) :
    Option (List Meteor) :=
  let snr := (valargmax (snrFlat mf_rx)).1
  let v := maxCellV mf_rx
  if snr_thresh ≤ snr ∧ -vmax_kps ≤ v / 1000 ∧ v / 1000 ≤ -vmin_kps then
    some [⟨mf_rx.t, mf_rx.range.getD (maxDelayIdx mf_rx) 0, v, snr⟩]
  else
    none

/-- Python truth value of the driver guard `meteor_list != []`
(src/detect_meteors.py line 210): `None != []` is True in Python, and a list
differs from `[]` iff it is nonempty. -/
def driverGuard : Option (List Meteor) → Bool
  | none => true
  | some l => decide (l ≠ [])

/-- A concrete 2x2 surface used to exercise the detector: peak SNR 9 at cell
(delay 1, frequency 1), whose range rate is -10000 m/s. -/
def surfEx : Surface :=
  { vals := [[⟨1, 0⟩, ⟨0, 0⟩], [⟨0, 0⟩, ⟨3, 0⟩]]
    noise_power := 1
    t := 0
    range := [1500, 3000]
    range_rate := [0, -10000] }

example : detectorBody surfEx 5 7 72 = some [⟨0, 3000, -10000, 9⟩] := by
  norm_num [detectorBody, surfEx, snrFlat, snrVals, maxCellV, maxFreqIdx,
    maxDelayIdx, numCols, valargmax, valargmaxAux]

example : detectorBody surfEx 20 7 72 = none := by
  norm_num [detectorBody, surfEx, snrFlat, snrVals, maxCellV, maxFreqIdx,
    maxDelayIdx, numCols, valargmax, valargmaxAux]

lemma valargmaxAux_fst (ys : List ℚ) :
    ∀ (best : ℚ) (bestIdx i : Nat),
      (valargmaxAux ys best bestIdx i).1 = ys.foldl max best := by
  induction ys with
  | nil => intro best bestIdx i; rfl
  | cons y ys ih =>
      intro best bestIdx i
      by_cases h : best < y
      · simp only [valargmaxAux, if_pos h, ih, List.foldl_cons,
          max_eq_right (le_of_lt h)]
      · simp only [valargmaxAux, if_neg h, ih, List.foldl_cons,
          max_eq_left (not_lt.mp h)]

/-- valargmax returns the global maximum of the array as its value. -/
lemma valargmax_fst (xs : List ℚ) : (valargmax xs).1 = listMax xs := by
  cases xs with
  | nil => rfl
  | cons x ys => simp only [valargmax, listMax, valargmaxAux_fst]

/-- A numpy float64 arithmetic result: a finite rational, plus or minus
infinity, or nan.  Needed because numpy maps division by zero to inf/nan (with
a RuntimeWarning) instead of raising, which is what summary does on a
zero-duration track. -/
inductive NpFloat
  | fin (q : ℚ)
  | inf
  | ninf
  | nan
deriving DecidableEq, Repr

/-- True exactly on finite values. -/
def NpFloat.isFinite : NpFloat → Bool
  | .fin _ => true
  | _ => false

/-- numpy float division on exact operands: x/y for y ≠ 0, and the IEEE results
0/0 = nan, x/0 = plus or minus inf for x ≠ 0. -/
def npDiv (x y : ℚ) : NpFloat :=
  if y ≠ 0 then .fin (x / y)
  else if x = 0 then .nan
  else if 0 < x then .inf
  else .ninf

/-- np.mean over a nonempty list (summary is only called on nonempty tracks;
on an empty array numpy would warn and yield nan). -/
def npMean (xs : List ℚ) : ℚ :=
  xs.sum / xs.length

/-- np.var with its default ddof=0: the mean of the squared deviations from
the mean, i.e. the population variance. -/
def npVar (xs : List ℚ) : ℚ :=
  ((xs.map (fun x => (x - npMean xs) ^ 2)).sum) / xs.length

/-- np.linalg.lstsq specialised to a two-column design matrix given as the
column lists a1, a2 with right-hand side b: the least-squares solution via the
normal equations, by Cramer.  The design matrix summary builds always has full
column rank (its Gram determinant is n*(sum dt^2 + n) - (sum dt)^2 ≥ n^2 > 0
for n ≥ 1 points by Cauchy-Schwarz), so this is exactly numpy's solution. -/
def lstsq2 (a1 a2 b : List ℚ) : ℚ × ℚ :=
  let s11 := (a1.map (fun x => x ^ 2)).sum
  let s12 := (List.zipWith (fun x y => x * y) a1 a2).sum
  let s22 := (a2.map (fun x => x ^ 2)).sum
  let b1 := (List.zipWith (fun x y => x * y) a1 b).sum
  let b2 := (List.zipWith (fun x y => x * y) a2 b).sum
  let det := s11 * s22 - s12 ^ 2
  ((b1 * s22 - s12 * b2) / det, (s11 * b2 - s12 * b1) / det)

/-- A completed track as summary receives it: the columns events['t'],
events['r'], events['v'], events['snr'] (same length, time-ordered). -/
structure Events where
  t : List ℚ
  r : List ℚ
  v : List ℚ
  snr : List ℚ
deriving DecidableEq, Repr

/-- The record summary builds (the dict d of meteor_processing.py lines
93-110).  initial_t keeps the raw float time (datetime_from_float is an
external conversion wrapping the same value); range_rates is the per-point
range-rate list (the code wraps it in one more singleton list for pandas);
lstsq is the solution vector n[0] of the joint fit. -/
structure TrackSummary where
  initial_t : ℚ
  duration : ℚ
  initial_r : ℚ
  overall_range_rate : NpFloat
  snr_mean : ℚ
  snr_var : ℚ
  snr_peak : ℚ
  range_rates : List ℚ
  range_rates_var : ℚ
  lstsq : ℚ × ℚ
deriving DecidableEq, Repr

/-- meteor_processing.summary (lines 92-112).  On an empty track the Python
code raises IndexError at events['t'][0], modelled as none; otherwise it always
returns a record: there is no error path (in particular the division by the
duration t on line 98 is numpy float division). -/
def summary (events : Events) : Option TrackSummary :=
  match events.t with
  | [] => none
  | t0 :: _ =>
    let tlast := events.t.getLastD 0
    let t := tlast - t0
    let r0 := events.r.headD 0
    let rlast := events.r.getLastD 0
    let nT := events.t.length
    let nR := events.r.length
    let a1 := List.replicate nT (1 : ℚ) ++ List.replicate nR (0 : ℚ)
    let a2 := events.t.map (fun x => x - t0) ++ List.replicate nR (1 : ℚ)
    let b := events.r ++ events.v
    some
      { initial_t := t0
        duration := t
        initial_r := r0
        overall_range_rate := npDiv (r0 - rlast) t
        snr_mean := npMean events.snr
        snr_var := npVar events.snr
        snr_peak := listMax events.snr
        range_rates := events.v
        range_rates_var := npVar events.v
        lstsq := lstsq2 a1 a2 b }

/-- The three-point track of spec §8: (t=0,r=100,v=-10), (1,90,-10), (2,80,-10)
(SNR values are irrelevant to the fit and set to 1). -/
def track3 : Events :=
  { t := [0, 1, 2], r := [100, 90, 80], v := [-10, -10, -10], snr := [1, 1, 1] }

/-- A single-point (zero-duration) track. -/
def track1 : Events :=
  { t := [5], r := [100], v := [-10], snr := [4] }

example :
    Option.map TrackSummary.lstsq (summary track3) = some (100, -10) := by
  norm_num [summary, track3, lstsq2, List.getLastD, List.replicate,
    List.zipWith]

example :
    Option.map TrackSummary.overall_range_rate (summary track3) =
      some (NpFloat.fin 10) := by
  norm_num [summary, track3, npDiv, List.getLastD]

example :
    Option.map TrackSummary.overall_range_rate (summary track1) =
      some NpFloat.nan := by
  norm_num [summary, track1, npDiv, List.getLastD]

/-- A Python exception as far as this module can raise one: a NameError
carrying the unresolvable name, an AttributeError carrying the missing module
attribute, or the InsufficientDataError the specification prescribes for a
too-short receive window. -/
inductive PyErr
  | nameError (n : String)
  | attributeError (n : String)
  | insufficientData
deriving DecidableEq, Repr

/-- scipy.constants.c, the speed of light in m/s (exact). -/
def c : ℚ := 299792458

/-- The module-level names bound in meteor_processing.py: its imports
(lines 1-8) and its three function defs.  `valargmax` and `is_there_a_meteor`
are notably absent. -/
def moduleNames : List String :=
  ["np", "math", "xr", "pd", "c", "datetime_to_float", "datetime_from_float",
   "rkl", "matched_filter", "detect_meteors", "summary"]

/-- The local names matched_filter has assigned before executing the line
`ranges = delay_idx*c/(2*fs)` (meteor_processing.py line 45): its parameters
and every variable bound on lines 18-44. -/
def matchedFilterLocals : List String :=
  ["tx", "rx", "rmin_km", "rmax_km", "fs", "fc", "delay_min", "delay_max",
   "rx_start", "rx_stop", "rx_corr", "tx_normalized", "y", "z", "L",
   "z_valid", "delays"]

/-- Python name resolution inside a function of meteor_processing.py: a name
evaluates only if it is a function local or a module global (no relevant
builtin shadows any name used here); otherwise the interpreter raises
NameError. -/
def resolveName (locals : List String) (n : String) : Except PyErr Unit :=
  if n ∈ locals ∨ n ∈ moduleNames then .ok () else .error (.nameError n)

/-- Python attribute lookup `mp.<name>` on the imported meteor_processing
module (the driver evaluates mp.is_there_a_meteor at detect_meteors.py line
208): AttributeError when the module does not bind the name. -/
def mpGetattr (n : String) : Except PyErr Unit :=
  if n ∈ moduleNames then .ok () else .error (.attributeError n)

/-- The local names detect_meteors has bound before executing line 75
(`snr, snr_idx = valargmax(snr_vals)`): its parameters and the snr_vals of
line 72. -/
def detectMeteorsLocals : List String :=
  ["mf_rx", "snr_thresh", "vmin_kps", "vmax_kps", "snr_vals"]

/-- meteor_processing.detect_meteors (lines 66-89).  Line 72 computes
snr_vals, and line 75 calls valargmax(snr_vals); meteor_processing.py neither
imports nor defines valargmax (only src/detect_meteors.py line 21 does, in
that module's own namespace), so the call raises NameError on every input and
the function never returns a value.  The unreachable branch carries the
intended detector logic detectorBody, whose valargmax is modelled from the
spec. -/
def detect_meteors (mf_rx : Surface) (snr_thresh vmin_kps vmax_kps : ℚ) :
    Except PyErr (Option (List Meteor)) :=
  match resolveName detectMeteorsLocals "valargmax" with
  | .error e => .error e
  | .ok _ => .ok (detectorBody mf_rx snr_thresh vmin_kps vmax_kps)

/-- Every call of detect_meteors raises NameError("valargmax") at line 75. -/
lemma detect_meteors_nameError (m : Surface) (s vmin vmax : ℚ) :
    detect_meteors m s vmin vmax = .error (.nameError "valargmax") := by
  have h : resolveName detectMeteorsLocals "valargmax" =
      .error (.nameError "valargmax") := by rfl
  simp only [detect_meteors, h]

/-- The transmit waveform DataArray: only its sample values matter here. -/
structure Tx where
  values : List Cplx
deriving DecidableEq, Repr

/-- The receive window DataArray with the metadata matched_filter reads:
sample values, first delay coordinate (rx.delay.values[0]), sample rate,
center frequency, noise power and absolute time. -/
structure Rx where
  values : List Cplx
  delay0 : ℤ
  sample_rate : ℚ
  center_frequencies : ℚ
  noise_power : ℚ
  t : ℚ
deriving DecidableEq, Repr

/-- Python sequence slicing a[start:stop] with integer indices: a negative
index counts from the end, and the window is clipped to the sequence. -/
def pySlice {α : Type} (l : List α) (start stop : ℤ) : List α :=
  let n : ℤ := l.length
  let s := if start < 0 then max (n + start) 0 else min start n
  let e := if stop < 0 then max (n + stop) 0 else min stop n
  (l.drop s.toNat).take (e - s).toNat
@[simp] lemma pySlice_def {α : Type} (l : List α) (start stop : ℤ) :
    pySlice l start stop =
      (l.drop ((if start < 0 then max ((l.length : ℤ) + start) 0
                else min start (l.length : ℤ)).toNat)).take
        (((if stop < 0 then max ((l.length : ℤ) + stop) 0
           else min stop (l.length : ℤ)) -
          (if start < 0 then max ((l.length : ℤ) + start) 0
           else min start (l.length : ℤ))).toNat) := rfl

/-- np.arange(a, b) over integers. -/
def intRange (a b : ℤ) : List ℤ :=
  (List.range (b - a).toNat).map (fun i => a + i)

/-- np.fft.fftfreq(n, d): the frequencies
[0, 1, ..., ceil(n/2)-1, -floor(n/2), ..., -1] / (n*d). -/
def fftfreq (n : Nat) (d : ℚ) : List ℚ :=
  ((List.range ((n + 1) / 2)).map (fun k => (k : ℤ)) ++
   (List.range (n / 2)).map (fun k => (k : ℤ) - (n / 2 : ℕ))).map
    (fun k => (k : ℚ) / ((n : ℚ) * d))

/-- `delay_min = int(np.floor((2*fs*rmin_km*1000)/c))` (line 22). -/
def delayMin (fs rmin_km : ℚ) : ℤ := Int.floor ((2 * fs * rmin_km * 1000) / c)

/-- `delay_max = int(np.ceil((2*fs*rmax_km*1000)/c))` (line 23). -/
def delayMax (fs rmax_km : ℚ) : ℤ := Int.ceil ((2 * fs * rmax_km * 1000) / c)

/-- `rx_start = max(delay_min - rx.delay.values[0], 0)` (line 26). -/
def rxStart (rx : Rx) (rmin_km : ℚ) : ℤ :=
  max (delayMin rx.sample_rate rmin_km - rx.delay0) 0

/-- `rx_stop = min(delay_max + tx.shape[0] - rx.delay.values[0], rx.shape[0])`
(line 28). -/
def rxStop (tx : Tx) (rx : Rx) (rmax_km : ℚ) : ℤ :=
  min (delayMax rx.sample_rate rmax_km + tx.values.length - rx.delay0)
    (rx.values.length : ℤ)

/-- The receive window provides fewer samples than one full correlation with
tx requires: the sliced rx segment `rx.values[rx_start:rx_stop]` is shorter
than the transmit waveform. -/
def insufficientWindow (tx : Tx) (rx : Rx) (rmin_km rmax_km : ℚ) : Prop :=
  (pySlice rx.values (rxStart rx rmin_km) (rxStop tx rx rmax_km)).length <
    tx.values.length

/-- meteor_processing.matched_filter (lines 10-62).  The two external library
calls that are not part of this repository are taken as function arguments:
`delaymult rx_corr txvals` stands for
`rkl.delay_multiply.delaymult_like_arg2(rx_corr, tx/norm(tx), R=1)` (the
unit-norm normalization of tx, line 32, is internal to it here), and `fft`
stands for `np.fft.fft`.  After slicing out the valid correlations the code
computes `delays` (line 43) and then evaluates `ranges = delay_idx*c/(2*fs)`
(line 45) and `vels = -freq_idx*c/(2*fc)` (line 47); `delay_idx` and
`freq_idx` are bound nowhere in scope, so the interpreter raises NameError
there.  The branches below the name lookups are therefore unreachable; they
build the surface the source text would build if those names denoted the
intended `delays` and `freqs`. -/
def matched_filter (delaymult : List Cplx → List Cplx → List (List Cplx))
    (fft : List (List Cplx) → List (List Cplx))
    (tx : Tx) (rx : Rx) (rmin_km rmax_km : ℚ) : Except PyErr Surface :=
  let fs := rx.sample_rate
  let fc := rx.center_frequencies
  let rx_start := rxStart rx rmin_km
  let rx_stop := rxStop tx rx rmax_km
  let rx_corr := pySlice rx.values rx_start rx_stop
  let y := delaymult rx_corr tx.values
  let z := fft y
  let L : ℤ := (tx.values.length : ℤ) - 1
  let z_valid := pySlice z L (-L)
  let delays := intRange (rx_start + rx.delay0)
    (rx_stop - tx.values.length + rx.delay0)
  match resolveName matchedFilterLocals "delay_idx" with
  | .error e => .error e
  | .ok _ =>
    let ranges := delays.map (fun d => (d : ℚ) * c / (2 * fs))
    let freqs := fftfreq tx.values.length fs
    match resolveName (matchedFilterLocals ++ ["ranges", "freqs"]) "freq_idx" with
    | .error e => .error e
    | .ok _ =>
      let vels := freqs.map (fun f => -f * c / (2 * fc))
      .ok { vals := z_valid
            noise_power := rx.noise_power
            t := rx.t
            range := ranges
            range_rate := vels }

/-- Every call to matched_filter raises NameError("delay_idx") at the
coordinate line: the name is neither a local nor a module global. -/
lemma matched_filter_nameError
    (delaymult : List Cplx → List Cplx → List (List Cplx))
    (fft : List (List Cplx) → List (List Cplx))
    (tx : Tx) (rx : Rx) (rmin_km rmax_km : ℚ) :
    matched_filter delaymult fft tx rx rmin_km rmax_km =
      .error (.nameError "delay_idx") := by
  have h : resolveName matchedFilterLocals "delay_idx" =
      .error (.nameError "delay_idx") := by rfl
  simp only [matched_filter, h]

/-- A concrete 3-sample transmit waveform. -/
def txEx : Tx := ⟨[⟨1, 0⟩, ⟨0, 0⟩, ⟨1, 0⟩]⟩

/-- A concrete receive window of a single sample (too short for any full
correlation with txEx), sampled at 1 Hz starting at delay 0. -/
def rxEx : Rx :=
  { values := [⟨1, 0⟩], delay0 := 0, sample_rate := 1,
    center_frequencies := 440000000, noise_power := 1, t := 0 }

/-- A trivial stand-in for the external delay-multiply routine. -/
def delaymultEx : List Cplx → List Cplx → List (List Cplx) := fun _ _ => []

/-- A trivial stand-in for np.fft.fft. -/
def fftEx : List (List Cplx) → List (List Cplx) := id

example : insufficientWindow txEx rxEx 70 140 := by
  norm_num [insufficientWindow, txEx, rxEx, rxStart, rxStop, delayMin,
    delayMax, c]

/-- Code-point comparison of char lists (Python-2 byte-string order for the
ASCII field names involved). -/
def charsLe : List Char → List Char → Bool
  | [], _ => true
  | _ :: _, [] => false
  | a :: as, b :: bs =>
      if a.toNat < b.toNat then true
      else if b.toNat < a.toNat then false
      else charsLe as bs

/-- Python string order on ASCII names. -/
def strLe (a b : String) : Bool := charsLe a.data b.data

/-- Insert into a sorted list of names. -/
def insertSorted (s : String) : List String → List String
  | [] => [s]
  | x :: xs => if strLe s x then s :: x :: xs else x :: insertSorted s xs

/-- The column order `pd.DataFrame(d)` gives the summary record: the Python-2
era pandas used by this code sorts the dict keys to fix the column order, so
the record columns (and the per-record rows `to_csv` writes with header=False)
appear in sorted key order. -/
def pandasSortedColumns (keys : List String) : List String :=
  keys.foldr insertSorted []

/-- The keys of the dict d in the order summary inserts them
(meteor_processing.py lines 94-110). -/
def summaryKeys : List String :=
  ["initial t", "duration", "initial r", "overall range rate", "snr mean",
   "snr var", "snr peak", "range rates", "range rates var", "lstsq"]

/-- The header column list `cols` of src/detect_meteors.py line 190, spelling
preserved (note "inital r"). -/
def driverCols : List String :=
  ["duration", "inital r", "initial t", "lstsq", "overall range rate",
   "range rates", "range rates var", "snr mean", "snr peak", "snr var"]

/-- The field list the specification (§6) requires, spelling as claimed. -/
def claimedFields : List String :=
  ["duration", "initial r", "initial t", "lstsq", "overall range rate",
   "range rates", "range rates var", "snr mean", "snr peak", "snr var"]

/-- Population variance stated independently of the code: mean of the squares
minus the square of the mean. -/
def popVarSpec (xs : List ℚ) : ℚ :=
  (xs.map (fun x => x ^ 2)).sum / xs.length - (xs.sum / xs.length) ^ 2

/-- Sample variance (what numpy would return with ddof=1). -/
def sampleVar (xs : List ℚ) : ℚ :=
  ((xs.map (fun x => (x - npMean xs) ^ 2)).sum) / ((xs.length : ℚ) - 1)

lemma sum_sq_dev (m : ℚ) (xs : List ℚ) :
    (xs.map (fun x => (x - m) ^ 2)).sum =
      (xs.map (fun x => x ^ 2)).sum - 2 * m * xs.sum +
        (xs.length : ℚ) * m ^ 2 := by
  induction xs with
  | nil => simp
  | cons x xs ih =>
      simp only [List.map_cons, List.sum_cons, ih, List.length_cons]
      push_cast
      ring

/-- np.var (ddof=0) equals the population variance in its mean-of-squares
form, for nonempty data. -/
lemma npVar_eq_popVarSpec (xs : List ℚ) (h : xs ≠ []) :
    npVar xs = popVarSpec xs := by
  have hn : (xs.length : ℚ) ≠ 0 :=
    Nat.cast_ne_zero.mpr (fun hc => h (List.length_eq_zero.mp hc))
  unfold npVar popVarSpec npMean
  rw [sum_sq_dev]
  field_simp
  ring

/-- A two-point track whose SNR samples are [0, 2]: population variance 1,
sample variance 2. -/
def trVar : Events :=
  { t := [0, 1], r := [1, 1], v := [-10, -10], snr := [0, 2] }

/-- C1: For every input (any transmit waveform, receive window and range
bounds, and any behaviour of the external delay-multiply and FFT routines),
matched_filter raises an unhandled NameError before constructing its output,
because the coordinate computation references the undefined names delay_idx
and freq_idx (delay_idx is hit first; freq_idx is equally unresolvable in the
scope it would be read in); it never returns a range-Doppler surface for any
input. -/
theorem c1_matched_filter_always_raises
    (delaymult : List Cplx → List Cplx → List (List Cplx))
    (fft : List (List Cplx) → List (List Cplx))
    (tx : Tx) (rx : Rx) (rmin_km rmax_km : ℚ) :
    matched_filter delaymult fft tx rx rmin_km rmax_km =
        .error (.nameError "delay_idx") ∧
      (∀ s : Surface,
        matched_filter delaymult fft tx rx rmin_km rmax_km ≠ .ok s) ∧
      resolveName (matchedFilterLocals ++ ["ranges", "freqs"]) "freq_idx" =
        .error (.nameError "freq_idx") := by
  refine ⟨matched_filter_nameError .., ?_, by rfl⟩
  intro s hs
  rw [matched_filter_nameError] at hs
  exact absurd hs (by simp)

/-- C2 (code-bug evidence): at a concrete pulse, matched_filter does not
return the coordinate-labelled surface the spec prescribes; it raises
NameError("delay_idx") at the very line that was meant to compute
range = delay*c/(2*fs) from the `delays` bound two lines earlier. -/
theorem c2_coordinate_lines_unreachable :
    matched_filter delaymultEx fftEx txEx rxEx 70 140 =
      .error (.nameError "delay_idx") :=
  matched_filter_nameError ..

/-- C3 counterexample: rxEx offers fewer samples than one full correlation
with txEx requires, yet matched_filter raises no InsufficientDataError on it
(no such check exists in the code; the call dies with the NameError of C1
after silently clipping the window). -/
theorem c3_counterexample_no_insufficient_data_error :
    insufficientWindow txEx rxEx 70 140 ∧
      matched_filter delaymultEx fftEx txEx rxEx 70 140 ≠
        .error .insufficientData := by
  constructor
  · norm_num [insufficientWindow, txEx, rxEx, rxStart, rxStop, delayMin,
      delayMax, c]
  · rw [matched_filter_nameError]
    simp

/-- C3 amended: matched_filter never signals an InsufficientDataError, for any
input whatsoever: a receive window too short for a full correlation is
silently clipped by rx_stop = min(..., rx.shape[0]) with no dedicated check,
and the call raises NameError("delay_idx") instead of returning. -/
theorem c3_amended_never_insufficient_data
    (delaymult : List Cplx → List Cplx → List (List Cplx))
    (fft : List (List Cplx) → List (List Cplx))
    (tx : Tx) (rx : Rx) (rmin_km rmax_km : ℚ) :
    matched_filter delaymult fft tx rx rmin_km rmax_km ≠
        .error .insufficientData ∧
      matched_filter delaymult fft tx rx rmin_km rmax_km =
        .error (.nameError "delay_idx") := by
  rw [matched_filter_nameError]
  exact ⟨by simp, rfl⟩

/-- The intended detector logic of lines 75-89 (unreachable in the module as
written) emits exactly one point iff the global-maximum SNR cell passes the
threshold and velocity tests, emits nothing otherwise, and never emits more
than one point — this is the rule spec §4.2 describes and supports reading
the missing valargmax binding as a slip rather than a design. -/
lemma detectorBody_zero_or_one (m : Surface) (thresh vmin vmax : ℚ) :
    (detectorBody m thresh vmin vmax =
        some [⟨m.t, m.range.getD (maxDelayIdx m) 0, maxCellV m,
          listMax (snrFlat m)⟩] ↔
      (thresh ≤ listMax (snrFlat m) ∧
        -vmax ≤ maxCellV m / 1000 ∧ maxCellV m / 1000 ≤ -vmin)) ∧
    (¬(thresh ≤ listMax (snrFlat m) ∧
        -vmax ≤ maxCellV m / 1000 ∧ maxCellV m / 1000 ≤ -vmin) →
      detectorBody m thresh vmin vmax = none) ∧
    (∀ l, detectorBody m thresh vmin vmax = some l → l.length = 1) := by
  simp only [detectorBody, valargmax_fst]
  by_cases hc : thresh ≤ listMax (snrFlat m) ∧
      -vmax ≤ maxCellV m / 1000 ∧ maxCellV m / 1000 ≤ -vmin
  · rw [if_pos hc]
    refine ⟨⟨fun _ => hc, fun _ => rfl⟩, fun h => absurd hc h, ?_⟩
    intro l hl
    rw [Option.some.injEq] at hl
    rw [← hl]
    rfl
  · rw [if_neg hc]
    refine ⟨⟨fun h => absurd h (by simp), fun h => absurd h hc⟩,
      fun _ => rfl, ?_⟩
    intro l hl
    exact absurd hl (by simp)

/-- The intended detector logic is antitone in the SNR threshold (the spec §8
monotonicity property); in the module as written this path is unreachable. -/
lemma detectorBody_threshold_antitone (m : Surface) (s1 s2 vmin vmax : ℚ)
    (h12 : s1 ≤ s2) (h1 : detectorBody m s1 vmin vmax = none) :
    detectorBody m s2 vmin vmax = none := by
  simp only [detectorBody] at h1 ⊢
  by_cases hc : s2 ≤ (valargmax (snrFlat m)).1 ∧
      -vmax ≤ maxCellV m / 1000 ∧ maxCellV m / 1000 ≤ -vmin
  · exfalso
    have hc1 : s1 ≤ (valargmax (snrFlat m)).1 ∧
        -vmax ≤ maxCellV m / 1000 ∧ maxCellV m / 1000 ≤ -vmin :=
      ⟨le_trans h12 hc.1, hc.2⟩
    rw [if_pos hc1] at h1
    exact absurd h1 (by simp)
  · rw [if_neg hc]

/-- C4 (code-bug evidence): for every surface, SNR threshold and velocity
window, meteor_processing.detect_meteors raises NameError("valargmax") at
line 75 — shown concretely at surfEx with threshold 5, a pulse the intended
rule of lines 79-89 would accept — so the detector never emits a point and
never returns None; the claimed accept/reject behaviour is the intent
(detectorBody_zero_or_one), not what the code does. -/
theorem c4_detector_always_raises :
    detect_meteors surfEx 5 7 72 = .error (.nameError "valargmax") ∧
      ∀ (m : Surface) (thresh vmin vmax : ℚ),
        detect_meteors m thresh vmin vmax =
          .error (.nameError "valargmax") :=
  ⟨detect_meteors_nameError .., fun m thresh vmin vmax =>
    detect_meteors_nameError m thresh vmin vmax⟩

/-- C5 (code-bug evidence): there is no threshold response to be antitone: at
thresholds 10 and 20 on surfEx — and at every input — detect_meteors raises
NameError("valargmax"); it never rejects (returns None) and never accepts
(returns a list) at any threshold.  The claimed antitonicity is the intent
(detectorBody_threshold_antitone), not what the code does. -/
theorem c5_no_threshold_response :
    detect_meteors surfEx 10 7 72 = .error (.nameError "valargmax") ∧
      detect_meteors surfEx 20 7 72 = .error (.nameError "valargmax") ∧
      (∀ (m : Surface) (s vmin vmax : ℚ),
        detect_meteors m s vmin vmax ≠ .ok none) ∧
      (∀ (m : Surface) (s vmin vmax : ℚ) (l : List Meteor),
        detect_meteors m s vmin vmax ≠ .ok (some l)) := by
  refine ⟨detect_meteors_nameError .., detect_meteors_nameError .., ?_, ?_⟩
  · intro m s vmin vmax h
    rw [detect_meteors_nameError] at h
    exact absurd h (by simp)
  · intro m s vmin vmax l h
    rw [detect_meteors_nameError] at h
    exact absurd h (by simp)

/-- C9 counterexample: at surfEx with threshold 20 the detection condition
fails (the intended logic rejects), yet meteor_processing.detect_meteors does
not return None — it raises NameError("valargmax") — and the driver never
consults it anyway: its meteor_list comes from mp.is_there_a_meteor
(detect_meteors.py line 208), an attribute meteor_processing.py does not
bind, so that call raises AttributeError before the line-210 guard. -/
theorem c9_counterexample_no_none_reaches_guard :
    detectorBody surfEx 20 7 72 = none ∧
      detect_meteors surfEx 20 7 72 ≠ .ok none ∧
      mpGetattr "is_there_a_meteor" =
        .error (.attributeError "is_there_a_meteor") := by
  refine ⟨?_, ?_, by rfl⟩
  · norm_num [detectorBody, surfEx, snrFlat, snrVals, maxCellV, maxFreqIdx,
      maxDelayIdx, numCols, valargmax, valargmaxAux]
  · rw [detect_meteors_nameError]
    simp

/-- C9 amended: the rejection path as written (line 89) yields Python None
and never the empty list, and the driver guard `meteor_list != []` evaluates
to true on None; but no rejection ever reaches that guard: every call of
meteor_processing.detect_meteors raises NameError("valargmax") before line
89, and the driver's meteor_list is produced by mp.is_there_a_meteor, an
attribute meteor_processing does not define, so line 208 raises
AttributeError first. -/
theorem c9_amended_guard_never_reached :
    driverGuard none = true ∧
      (∀ (m : Surface) (s vmin vmax : ℚ),
        detectorBody m s vmin vmax ≠ some []) ∧
      (∀ (m : Surface) (s vmin vmax : ℚ),
        detect_meteors m s vmin vmax = .error (.nameError "valargmax")) ∧
      mpGetattr "is_there_a_meteor" =
        .error (.attributeError "is_there_a_meteor") := by
  refine ⟨rfl, ?_, fun m s vmin vmax =>
    detect_meteors_nameError m s vmin vmax, by rfl⟩
  intro m s vmin vmax h
  simp only [detectorBody] at h
  split_ifs at h
  simp at h

/-- C6 counterexample: on the spec track (t=0,r=100,v=-10), (1,90,-10),
(2,80,-10), the overall range rate summary stores is +10 = (100-80)/2, not
-10 as claimed. -/
theorem c6_counterexample_rate_sign :
    Option.map TrackSummary.overall_range_rate (summary track3) =
        some (NpFloat.fin 10) ∧
      Option.map TrackSummary.overall_range_rate (summary track3) ≠
        some (NpFloat.fin (-10)) := by
  constructor
  · norm_num [summary, track3, npDiv, List.getLastD]
  · norm_num [summary, track3, npDiv, List.getLastD]

/-- C6 amended: on that track the joint least-squares fit recovers intercept
a = 100 and slope b = -10 exactly, the duration is 2, and the overall range
rate is (100-80)/2 = +10: the code computes (r_first - r_last)/duration,
which negates the secant slope of range versus time. -/
theorem c6_amended_fit_and_rate :
    Option.map (fun s => (s.lstsq, s.duration, s.overall_range_rate))
        (summary track3) = some ((100, -10), 2, NpFloat.fin 10) := by
  norm_num [summary, track3, lstsq2, npDiv, List.getLastD, List.replicate,
    List.zipWith]

lemma npDiv_zero_not_finite (x : ℚ) : (npDiv x 0).isFinite = false := by
  unfold npDiv
  split_ifs with h1 h2 h3 <;> first | exact absurd rfl h1 | rfl

/-- C7 counterexample: on the single-point (zero-duration) track track1,
summary returns a record (raising no DegenerateTrackError — no such error
exists in the code) whose overall range rate is numpy's 0.0/0.0 = nan. -/
theorem c7_counterexample_single_point :
    (summary track1).isSome = true ∧
      Option.map TrackSummary.overall_range_rate (summary track1) =
        some NpFloat.nan := by
  constructor
  · rfl
  · norm_num [summary, track1, npDiv, List.getLastD]

/-- C7 amended: summary never fails with a DegenerateTrackError; on every
nonempty track of zero duration it returns a record whose overall range rate
is the numpy division-by-zero result (nan or a signed infinity), a non-finite
default numeric value silently handed to the caller. -/
theorem c7_amended_zero_duration_yields_nonfinite (events : Events)
    (hne : events.t ≠ [])
    (hdur : events.t.getLastD 0 - events.t.headD 0 = 0) :
    (summary events).isSome = true ∧
      Option.map (fun s => s.overall_range_rate.isFinite) (summary events) =
        some false := by
  obtain ⟨t0, rest, ht⟩ := List.exists_cons_of_ne_nil hne
  rw [ht] at hdur
  simp only [List.headD_cons, List.getLastD_eq_getLast?] at hdur
  unfold summary
  rw [ht]
  simp [hdur, npDiv_zero_not_finite]

/-- C7 witness: track1 is nonempty with zero duration, and summary returns a
record with a non-finite overall range rate on it. -/
theorem c7_amended_witness :
    track1.t ≠ [] ∧ (track1.t.getLastD 0 - track1.t.headD 0 = 0) ∧
      ((summary track1).isSome = true ∧
        Option.map (fun s => s.overall_range_rate.isFinite) (summary track1) =
          some false) := by
  have h1 : track1.t ≠ [] := by simp [track1]
  have h2 : track1.t.getLastD 0 - track1.t.headD 0 = 0 := by
    norm_num [track1, List.getLastD]
  exact ⟨h1, h2, c7_amended_zero_duration_yields_nonfinite track1 h1 h2⟩

/-- C8 counterexample: the column-name list the pipeline actually writes as
the CSV header differs from the claimed field list — its second entry is
spelled "inital r". -/
theorem c8_counterexample_header_spelling :
    driverCols ≠ claimedFields ∧ driverCols.getD 1 "" = "inital r" := by
  exact ⟨by decide, by decide⟩

/-- C8 amended: every TrackSummary record has exactly the ten claimed fields
in exactly the claimed order (the sorted dict-key order pandas gives the
record's columns), but the single header row the driver writes spells the
second column "inital r" instead of "initial r". -/
theorem c8_amended_fields :
    pandasSortedColumns summaryKeys = claimedFields ∧
      driverCols.getD 1 "" = "inital r" ∧
      claimedFields.getD 1 "" = "initial r" := by
  exact ⟨by decide, by decide, by decide⟩

/-- C10: for every nonempty track, summary computes both the SNR variance and
the range-rate variance as the population variance (numpy default ddof=0); the
variances of the single-point track track1 are 0 (not an error); and on the
SNR samples [0, 2] of trVar the value is the population variance 1, not the
sample variance, which is 2. -/
theorem c10_population_variance (events : Events) (hsnr : events.snr ≠ [])
    (hv : events.v ≠ []) (ht : events.t ≠ []) :
    Option.map (fun s => (s.snr_var, s.range_rates_var)) (summary events) =
        some (popVarSpec events.snr, popVarSpec events.v) ∧
      Option.map (fun s => (s.snr_var, s.range_rates_var)) (summary track1) =
        some (0, 0) ∧
      Option.map TrackSummary.snr_var (summary trVar) = some 1 ∧
      sampleVar [0, 2] = 2 := by
  obtain ⟨t0, rest, htc⟩ := List.exists_cons_of_ne_nil ht
  refine ⟨?_, ?_, ?_, ?_⟩
  · unfold summary
    rw [htc]
    rw [npVar_eq_popVarSpec _ hsnr, npVar_eq_popVarSpec _ hv]
    rfl
  · norm_num [summary, track1, npVar, npMean]
  · norm_num [summary, trVar, npVar, npMean]
  · norm_num [sampleVar, npMean]

/-- C10 witness: the hypotheses hold of track3 and the conclusion follows by
the theorem. -/
theorem c10_population_variance_witness :
    track3.snr ≠ [] ∧ track3.v ≠ [] ∧ track3.t ≠ [] ∧
      (Option.map (fun s => (s.snr_var, s.range_rates_var)) (summary track3) =
          some (popVarSpec track3.snr, popVarSpec track3.v) ∧
        Option.map (fun s => (s.snr_var, s.range_rates_var)) (summary track1) =
          some (0, 0) ∧
        Option.map TrackSummary.snr_var (summary trVar) = some 1 ∧
        sampleVar [0, 2] = 2) := by
  have h1 : track3.snr ≠ [] := by simp [track3]
  have h2 : track3.v ≠ [] := by simp [track3]
  have h3 : track3.t ≠ [] := by simp [track3]
  exact ⟨h1, h2, h3, c10_population_variance track3 h1 h2 h3⟩
